import Mathlib

/-!
Verification development for the AmiFi transaction service
(`src/parsers.py`, `src/classifier.py`, `src/goal_impact.py`).

The Python code is embedded shallowly: amounts and confidences (Python
floats) become `ℚ`, Python strings become `String`, the regular
expressions of `SMSParser` become terms of a small `Regex` type together
with an executable backtracking matcher that mirrors `re.search`
semantics (leftmost match, greedy and lazy quantifiers, capture groups,
optional case-insensitivity), a Python `datetime` becomes a small record,
and the wall clock read by `datetime.now()` inside the goal-impact
calculator becomes an explicit `now : Int` argument (seconds since
2025-01-01T00:00:00).  Code that can raise (`float(...)` on a digitless
string) is embedded in `Except Unit`.
-/

namespace AmiFi

/-! ## Character classes and regular expressions

Only the constructs appearing in `SMSParser.__init__` and the generic
fallback of `parse_message` are modelled: literal characters (optionally
case-insensitive, for `re.IGNORECASE`), the classes `\d`, `\w`, `[\d,]`,
`[A-Z0-9]` (the latter matched case-insensitively because every use is
under `re.IGNORECASE`), the wildcard `.`, greedy `+` `*` `?` `{n}` and
lazy `*?` quantifiers over a single token, and capture groups.
-/

inductive CKind
  | digit
  | word
  | digitComma
  | upAlnum
deriving DecidableEq

def CKind.cmatch : CKind → Char → Bool
  | .digit, c => c.isDigit
  | .word, c => c.isAlphanum || c = '_'
  | .digitComma, c => c.isDigit || c = ','
  | .upAlnum, c => c.isAlphanum

inductive RTok
  | lit (c : Char) (ci : Bool)
  | cls (k : CKind)
  | dot
deriving DecidableEq

def RTok.tmatch : RTok → Char → Bool
  | .lit c true, x => c.toLower = x.toLower
  | .lit c false, x => c = x
  | .cls k, x => k.cmatch x
  | .dot, x => x ≠ '\n'

inductive Regex
  | eps
  | tok (t : RTok)
  | seq (a b : Regex)
  | rep (t : RTok) (lo : Nat) (hi : Option Nat) (lzy : Bool)
  | grp (i : Nat) (r : Regex)
deriving DecidableEq

/-- Length of the longest run of leading characters matching a token. -/
def countTok (t : RTok) : List Char → Nat
  | [] => 0
  | c :: rest => if t.tmatch c then countTok t rest + 1 else 0

/-- Capture groups recovered from a match: group index paired with the
matched substring. -/
abbrev Groups := List (Nat × String)

/-- Backtracking matcher in continuation-passing style.  `runM r s g k`
tries to match `r` against a proper prefix of `s`; on each candidate it
calls `k` with the remaining input and the capture groups collected so
far, backtracking (greedily or lazily, as the quantifier dictates) until
`k` succeeds.  This reproduces the order in which Python's `re` engine
enumerates matches for the pattern shapes used by the parser. -/
def Regex.runM : Regex → List Char → Groups →
    (List Char → Groups → Option Groups) → Option Groups
  | .eps, s, g, k => k s g
  | .tok t, s, g, k =>
    match s with
    | [] => none
    | c :: rest => if t.tmatch c then k rest g else none
  | .seq a b, s, g, k => a.runM s g (fun s2 g2 => b.runM s2 g2 k)
  | .rep t lo hi lzy, s, g, k =>
    let cap := match hi with
      | some h => min h (countTok t s)
      | none => countTok t s
    if lo ≤ cap then
      let cands := (List.range (cap + 1 - lo)).map (fun n => n + lo)
      let ordered := if lzy then cands else cands.reverse
      ordered.findSome? (fun n => k (s.drop n) g)
    else none
  | .grp i r, s, g, k =>
    r.runM s g (fun s2 g2 =>
      k s2 ((i, String.mk (s.take (s.length - s2.length))) :: g2))

/-- The `re.search` semantics: try an anchored match at each start position,
left to right, returning the captures of the first position that admits
a match. -/
def searchAux (r : Regex) : List Char → Option Groups
  | [] => r.runM [] [] (fun _ g => some g)
  | c :: rest =>
    match r.runM (c :: rest) [] (fun _ g => some g) with
    | some g => some g
    | none => searchAux r rest

def reSearch (r : Regex) (s : String) : Option Groups :=
  searchAux r s.toList

def getGroup (g : Groups) (i : Nat) : String :=
  match g.find? (fun p => p.1 == i) with
  | some p => p.2
  | none => ""

/-! ## Python string and number helpers -/

/-- Whitespace stripped by Python `str.strip()`. -/
def isSpaceChar (c : Char) : Bool :=
  c = ' ' || c = '\t' || c = '\n' || c = '\r' || c = '\x0b' || c = '\x0c'

def pyStrip (s : String) : String :=
  String.mk (((s.toList.dropWhile isSpaceChar).reverse.dropWhile isSpaceChar).reverse)

def lowerStr (s : String) : String :=
  String.mk (s.toList.map Char.toLower)

/-- Substring containment over char lists (`needle in hay` in Python). -/
def containsSub : List Char → List Char → Bool
  | [], needle => needle.isEmpty
  | c :: rest, needle => needle.isPrefixOf (c :: rest) || containsSub rest needle

def strContains (hay needle : String) : Bool :=
  containsSub hay.toList needle.toList

/-- Embeds `str.replace(',', '')`. -/
def stripCommas (s : String) : String :=
  String.mk (s.toList.filter (fun c => c ≠ ','))

def digitsToNat (s : List Char) : Nat :=
  s.foldl (fun a c => a * 10 + (c.toNat - 48)) 0

/-- Embeds `str.split(sep)` for a single-character separator (keeps empty parts). -/
def splitOnChar (sep : Char) : List Char → List (List Char)
  | [] => [[]]
  | c :: rest =>
    let r := splitOnChar sep rest
    if c = sep then [] :: r
    else
      match r with
      | [] => [[c]]
      | h :: t => (c :: h) :: t

/-- Split at the first decimal point, if any. -/
def splitDot (cs : List Char) : List Char × Option (List Char) :=
  let ip := cs.takeWhile (fun c => c ≠ '.')
  match cs.dropWhile (fun c => c ≠ '.') with
  | [] => (ip, none)
  | _ :: fp => (ip, some fp)

/-- Python `float(s)` on the strings this parser can feed it (digits with
at most one decimal point, after commas were stripped): `none` models the
`ValueError` raised when no digit is present or the shape is invalid. -/
def pyFloat (s : String) : Option ℚ :=
  let cs := s.toList
  let ip := (splitDot cs).1
  match (splitDot cs).2 with
  | none =>
    if ip.isEmpty || !ip.all Char.isDigit then none
    else some (digitsToNat ip)
  | some fp =>
    if (ip.isEmpty && fp.isEmpty) || !ip.all Char.isDigit || !fp.all Char.isDigit then none
    else some ((digitsToNat ip : ℚ) + (digitsToNat fp : ℚ) / (10 : ℚ) ^ fp.length)

/-- Python `int(s)` on a decimal-digit string; `none` models `ValueError`. -/
def pyIntNat (s : String) : Option Nat :=
  let cs := s.toList
  if cs.isEmpty || !cs.all Char.isDigit then none else some (digitsToNat cs)

/-! ## Datetimes (`datetime.datetime`) -/

structure PyDateTime where
  year : Nat
  month : Nat
  day : Nat
  hour : Nat
  minute : Nat
deriving DecidableEq

def isLeapYear (y : Nat) : Bool :=
  (y % 4 = 0 && y % 100 ≠ 0) || y % 400 = 0

def daysInMonth (y m : Nat) : Nat :=
  if m = 2 then (if isLeapYear y then 29 else 28)
  else if m = 4 ∨ m = 6 ∨ m = 9 ∨ m = 11 then 30
  else 31

/-- Embeds `datetime(year, month, day, hour, minute)`; `none` models the
`ValueError` raised on out-of-range components. -/
def mkDateTime (y mo d h mi : Nat) : Option PyDateTime :=
  if 1 ≤ y ∧ y ≤ 9999 ∧ 1 ≤ mo ∧ mo ≤ 12 ∧ 1 ≤ d ∧ d ≤ daysInMonth y mo ∧
      h ≤ 23 ∧ mi ≤ 59 then
    some ⟨y, mo, d, h, mi⟩
  else none

/-! ## `src/parsers.py`: `SMSParser`

`ParsedTransaction.timestamp` is `Option PyDateTime`: `none` stands for
the `datetime.now()` fallback the Python code substitutes when no
date/time fields are available or they fail to parse. -/

inductive ParserMeta
  | regexPattern (patternMatched : List String)
  | genericFallback
deriving DecidableEq

structure ParsedTransaction where
  amount : ℚ
  currency : String
  transaction_type : String
  timestamp : Option PyDateTime
  account_ref : Option String
  merchant : Option String
  reference : Option String
  confidence : ℚ
  raw_message : String
  channel : String
  meta : ParserMeta
deriving DecidableEq

/-- One entry of `SMSParser.patterns` (`ttype` is the Python key `type`). -/
structure SMSPattern where
  regex : Regex
  ttype : String
  confidence : ℚ
  fields : List String
deriving DecidableEq

def rlit (ci : Bool) (s : String) : Regex :=
  s.toList.foldr (fun c r => Regex.seq (Regex.tok (RTok.lit c ci)) r) Regex.eps

def rcat (rs : List Regex) : Regex := rs.foldr Regex.seq Regex.eps

def dtok : RTok := RTok.cls CKind.digit
def wtok : RTok := RTok.cls CKind.word
def dctok : RTok := RTok.cls CKind.digitComma
def uatok : RTok := RTok.cls CKind.upAlnum

def rplus (t : RTok) : Regex := Regex.rep t 1 none false
def rstar (t : RTok) : Regex := Regex.rep t 0 none false
def rlazystar (t : RTok) : Regex := Regex.rep t 0 none true
def ropt (t : RTok) : Regex := Regex.rep t 0 (some 1) false
def rexact (t : RTok) (n : Nat) : Regex := Regex.rep t n (some n) false

/-- The group `([\d,]+\.?\d*)`, always capture group 0 of its pattern. -/
def amountGroupRe (ci : Bool) : Regex :=
  Regex.grp 0 (rcat [rplus dctok, ropt (RTok.lit '.' ci), rstar dtok])

/-- The date fragment `(\d{2}-\d{2}-\d{4})` without the enclosing group. -/
def dateRe : Regex :=
  rcat [rexact dtok 2, rlit true "-", rexact dtok 2, rlit true "-", rexact dtok 4]

/-- Pattern `INR ([\d,]+\.?\d*) spent on.*?(\w+ Credit Card) (XX\d+) at (.*?) on
(\d{2}-\d{2}-\d{4}) (\d{4})` -/
def hdfcSpendRe : Regex :=
  rcat [rlit true "INR ", amountGroupRe true, rlit true " spent on",
    rlazystar RTok.dot,
    Regex.grp 1 (rcat [rplus wtok, rlit true " Credit Card"]),
    rlit true " ",
    Regex.grp 2 (rcat [rlit true "XX", rplus dtok]),
    rlit true " at ",
    Regex.grp 3 (rlazystar RTok.dot),
    rlit true " on ",
    Regex.grp 4 dateRe,
    rlit true " ",
    Regex.grp 5 (rexact dtok 4)]

/-- Pattern `INR ([\d,]+\.?\d*) credited to AC (\d+) (\w+) via NEFT on
(\d{2}-\d{2}-\d{4}) (\d{4})\. Ref ([A-Z0-9]+)` -/
def neftCreditRe : Regex :=
  rcat [rlit true "INR ", amountGroupRe true, rlit true " credited to AC ",
    Regex.grp 1 (rplus dtok),
    rlit true " ",
    Regex.grp 2 (rplus wtok),
    rlit true " via NEFT on ",
    Regex.grp 3 dateRe,
    rlit true " ",
    Regex.grp 4 (rexact dtok 4),
    rlit true ". Ref ",
    Regex.grp 5 (rplus uatok)]

/-- Pattern `INR ([\d,]+\.?\d*) paid to (.*?) via UPI Ref ([A-Z0-9]+) on
(\d{2}-\d{2}-\d{4}) (\d{4})` -/
def upiPaymentRe : Regex :=
  rcat [rlit true "INR ", amountGroupRe true, rlit true " paid to ",
    Regex.grp 1 (rlazystar RTok.dot),
    rlit true " via UPI Ref ",
    Regex.grp 2 (rplus uatok),
    rlit true " on ",
    Regex.grp 3 dateRe,
    rlit true " ",
    Regex.grp 4 (rexact dtok 4)]

/-- Pattern `Reminder.*?payment of INR ([\d,]+) due on (\d{2}-\d{2}-\d{4}) for
(\w+) (XX\d+)` -/
def billReminderRe : Regex :=
  rcat [rlit true "Reminder", rlazystar RTok.dot, rlit true "payment of INR ",
    Regex.grp 0 (rplus dctok),
    rlit true " due on ",
    Regex.grp 1 dateRe,
    rlit true " for ",
    Regex.grp 2 (rplus wtok),
    rlit true " ",
    Regex.grp 3 (rcat [rlit true "XX", rplus dtok])]

/-- Embeds `SMSParser.patterns`, in declared order. -/
def smsPatterns : List SMSPattern :=
  [⟨hdfcSpendRe, "debit", 0.95,
      ["amount", "account_type", "account_ref", "merchant", "date", "time"]⟩,
   ⟨neftCreditRe, "credit", 0.95,
      ["amount", "account_ref", "bank", "date", "time", "reference"]⟩,
   ⟨upiPaymentRe, "debit", 0.90,
      ["amount", "merchant", "reference", "date", "time"]⟩,
   ⟨billReminderRe, "bill", 0.85,
      ["amount", "due_date", "bank", "account_ref"]⟩]

/-- Embeds `match.groups()` as a positional list (group `i` of the pattern). -/
def groupList (g : Groups) (n : Nat) : List String :=
  (List.range n).map (getGroup g)

/-- Embeds `SMSParser._extract_field` for a single target field name:
`fields.index(target)` then a bounds-checked positional read. -/
def extractField (groups fields : List String) (target : String) : Option String :=
  match fields.findIdx? (fun f => f == target) with
  | some idx => groups.get? idx
  | none => none

/-- Embeds `SMSParser._parse_timestamp`: locate the first field whose name
contains "date" and the first containing "time", split the date on `-`
as day-month-year, read `HHMM`, and build a `datetime`; any failure
falls back to `datetime.now()`, modelled as `none`. -/
def parseTimestamp (groups fields : List String) : Option PyDateTime :=
  match fields.findIdx? (fun f => strContains f "date"),
        fields.findIdx? (fun f => strContains f "time") with
  | some di, some ti =>
    let dateStr := (groups.get? di).getD ""
    let timeStr := (groups.get? ti).getD ""
    match splitOnChar '-' dateStr.toList with
    | [dcs, mcs, ycs] =>
      match pyIntNat (String.mk ycs), pyIntNat (String.mk mcs),
            pyIntNat (String.mk dcs),
            pyIntNat (String.mk (timeStr.toList.take 2)),
            pyIntNat (String.mk (timeStr.toList.drop 2)) with
      | some y, some mo, some d, some h, some mi => mkDateTime y mo d h mi
      | _, _, _, _, _ => none
    | _ => none
  | _, _ => none

/-- Embeds `SMSParser._extract_transaction_data`.  The Python code calls
`float()` unguarded on the comma-stripped amount capture;
`Except.error ()` models the `ValueError` escaping when that string
holds no digits. -/
def extractTransactionData (p : SMSPattern) (groups : List String)
    (rawMessage : String) : Except Unit ParsedTransaction :=
  match pyFloat (stripCommas ((groups.get? 0).getD "")) with
  | none => Except.error ()
  | some amount =>
    Except.ok
      { amount := amount
        currency := "INR"
        transaction_type := p.ttype
        timestamp := parseTimestamp groups p.fields
        account_ref := extractField groups p.fields "account_ref"
        merchant := extractField groups p.fields "merchant"
        reference := extractField groups p.fields "reference"
        confidence := p.confidence
        raw_message := rawMessage
        channel := "sms"
        meta := ParserMeta.regexPattern p.fields }

/-- The `for pattern_info in self.patterns` loop: first pattern (in
declared order) whose `re.search` succeeds, with its positional groups. -/
def findPatternMatch (s : String) : Option (SMSPattern × List String) :=
  smsPatterns.findSome? (fun p =>
    match reSearch p.regex s with
    | some g => some (p, groupList g p.fields.length)
    | none => none)

/-- Pattern `INR ([\d,]+\.?\d*)` — the generic fallback search, which Python runs
without `re.IGNORECASE`. -/
def genericAmountRe : Regex :=
  rcat [rlit false "INR ", amountGroupRe false]

/-- Embeds `SMSParser.parse_message`.  `Except.error ()` is an escaping
`ValueError` from `float()`; `Except.ok none` is Python's `None`. -/
def parseMessage (smsText : String) : Except Unit (Option ParsedTransaction) :=
  let s := pyStrip smsText
  match findPatternMatch s with
  | some pg =>
    match extractTransactionData pg.1 pg.2 s with
    | Except.ok t => Except.ok (some t)
    | Except.error e => Except.error e
  | none =>
    match reSearch genericAmountRe s with
    | some g =>
      match pyFloat (stripCommas (getGroup g 0)) with
      | none => Except.error ()
      | some amount =>
        Except.ok (some
          { amount := amount
            currency := "INR"
            transaction_type := "other"
            timestamp := none
            account_ref := none
            merchant := none
            reference := none
            confidence := 0.3
            raw_message := s
            channel := "sms"
            meta := ParserMeta.genericFallback })
    | none => Except.ok none

/-! ## `src/classifier.py`

No TF-Lite model is provided (`TransactionClassifier()` is constructed
with `tflite_model_path=None`), so `TFLiteInterface.predict` always runs
`_rule_based_predict`.  That predictor reads exactly four entries of the
features dict — `merchant`, `transaction_type`, `amount`, `raw_message`
— which `_extract_features` copies verbatim from the transaction
(merchant defaulted to `''`); they are collected in `RuleFeatures`.  The
remaining feature values (amount buckets, time buckets, channel flags)
influence neither the prediction nor the subcategories; only the fixed
key list `featureKeys` of the dict is observable, via `features_used`. -/

structure ClassificationResult where
  category : String
  confidence : ℚ
  subcategories : List String
  features_used : List String
deriving DecidableEq

structure RuleFeatures where
  amount : ℚ
  transaction_type : String
  merchant : String
  raw_message : String
deriving DecidableEq

def extractRuleFeatures (t : ParsedTransaction) : RuleFeatures :=
  { amount := t.amount
    transaction_type := t.transaction_type
    merchant := t.merchant.getD ""
    raw_message := t.raw_message }

/-- Keys of the dict built by `TransactionClassifier._extract_features`,
in Python insertion order; the key set never depends on the input. -/
def featureKeys : List String :=
  ["amount", "transaction_type", "merchant", "channel", "raw_message",
   "has_account_ref", "has_reference",
   "is_ecommerce", "is_streaming", "is_utility",
   "is_micro_transaction", "is_small_transaction", "is_medium_transaction",
   "is_large_transaction", "amount_bucket",
   "is_business_hours", "is_weekend", "time_bucket",
   "is_sms", "is_email", "message_length"]

/-- Embeds `TFLiteInterface._rule_based_predict`. -/
def ruleBasedPredict (f : RuleFeatures) : String × ℚ :=
  if strContains (lowerStr f.merchant) "amazon" ||
      strContains (lowerStr f.merchant) "flipkart" ||
      strContains (lowerStr f.merchant) "myntra" ||
      strContains (lowerStr f.merchant) "mall" then ("shopping", 0.9)
  else if strContains (lowerStr f.merchant) "mseb" ||
      strContains (lowerStr f.merchant) "electricity" ||
      strContains (lowerStr f.merchant) "gas" ||
      strContains (lowerStr f.merchant) "water" then ("utilities", 0.95)
  else if strContains (lowerStr f.merchant) "netflix" ||
      strContains (lowerStr f.merchant) "spotify" ||
      strContains (lowerStr f.merchant) "prime" ||
      strContains (lowerStr f.merchant) "cinema" then ("entertainment", 0.9)
  else if lowerStr f.transaction_type == "bill" then ("bills", 0.85)
  else if strContains (lowerStr f.raw_message) "upi" ||
      strContains (lowerStr f.raw_message) "neft" then ("transfer", 0.8)
  else if decide (f.amount < 100) &&
      strContains (lowerStr f.raw_message) "credit card" then ("fee", 0.75)
  else if lowerStr f.transaction_type == "credit" &&
      strContains (lowerStr f.raw_message) "interest" then ("cashback", 0.9)
  else ("other", 0.3)

/-- Embeds `TransactionClassifier._generate_subcategories`. -/
def generateSubcategories (t : ParsedTransaction) (primaryCategory : String) :
    List String :=
  if primaryCategory == "shopping" then
    (if t.amount > 2000 then ["high_value_purchase"] else []) ++
    (if strContains (lowerStr (t.merchant.getD "")) "amazon" then
      ["online_marketplace"] else [])
  else if primaryCategory == "utilities" then
    (if t.amount > 1000 then ["high_utility_bill"] else [])
  else if primaryCategory == "bills" then
    ["recurring_payment"] ++
    (if strContains (lowerStr t.raw_message) "due" then
      ["payment_reminder"] else [])
  else []

/-- Embeds `TransactionClassifier.classify_transaction` (rule-based path). -/
def classifyTransaction (t : ParsedTransaction) : ClassificationResult :=
  { category := (ruleBasedPredict (extractRuleFeatures t)).1
    confidence := (ruleBasedPredict (extractRuleFeatures t)).2
    subcategories :=
      generateSubcategories t (ruleBasedPredict (extractRuleFeatures t)).1
    features_used := featureKeys }

/-! ## `src/goal_impact.py`

`datetime.now()` is read inside `_calculate_savings_impact` and
`_calculate_bill_impact` (for the at-risk test); it is passed in
explicitly as `now : Int`, seconds since 2025-01-01T00:00:00.  Goal
deadlines use the same epoch.  `(deadline - now).days` of a Python
`timedelta` floors, hence `Int.fdiv`. -/

inductive GoalType
  | savings
  | budget
  | bill_payment
  | spending_limit
  | investment
deriving DecidableEq, BEq

structure Goal where
  goal_id : String
  goal_type : GoalType
  name : String
  target_amount : ℚ
  current_amount : ℚ
  deadline : Option Int
  categories : List String
  is_active : Bool
deriving DecidableEq

structure GoalImpact where
  goal_id : String
  goal_name : String
  impact_score : ℚ
  message : String
  impact_amount : ℚ
  new_progress : ℚ
  is_goal_achieved : Bool
  is_goal_at_risk : Bool
deriving DecidableEq

/-- Python `(deadline - now).days` for second-resolution instants. -/
def timedeltaDays (deadline now : Int) : Int :=
  Int.fdiv (deadline - now) 86400

/-- Deadline `datetime(2025, 12, 31)`: day 364 of the epoch year, in seconds. -/
def savingsDeadline : Int := 364 * 86400

/-- Deadline `datetime(2025, 9, 30)`: day 272 of the epoch year, in seconds. -/
def septemberDeadline : Int := 272 * 86400

/-- Round half to even, as Python's formatting of these values does. -/
def roundHalfEven (x : ℚ) : Int :=
  if x - (x.floor : ℚ) > 1 / 2 then x.floor + 1
  else if x - (x.floor : ℚ) < 1 / 2 then x.floor
  else if x.floor % 2 = 0 then x.floor else x.floor + 1

/-- The `:.2f` formatting used for currency amounts in messages. -/
def formatAmount2 (q : ℚ) : String :=
  let c := roundHalfEven (q * 100)
  let a := c.natAbs
  (if c < 0 then "-" else "") ++ toString (a / 100) ++ "." ++
    (if a % 100 < 10 then "0" else "") ++ toString (a % 100)

/-- The `:.0%` formatting used for budget ratios in messages. -/
def formatPercent (q : ℚ) : String :=
  toString (roundHalfEven (q * 100)) ++ "%"

def demoSavingsGoal : Goal :=
  { goal_id := "demo-savings"
    goal_type := GoalType.savings
    name := "Emergency Fund Savings"
    target_amount := 50000.0
    current_amount := 15000.0
    deadline := some savingsDeadline
    categories := ["credit", "cashback", "investment"]
    is_active := true }

def ccBillGoal : Goal :=
  { goal_id := "cc-bill"
    goal_type := GoalType.bill_payment
    name := "Credit Card Bill Payment"
    target_amount := 12450.0
    current_amount := 0.0
    deadline := some septemberDeadline
    categories := ["bill", "credit"]
    is_active := true }

def monthlyBudgetGoal : Goal :=
  { goal_id := "monthly-budget"
    goal_type := GoalType.spending_limit
    name := "Monthly Spending Budget"
    target_amount := 25000.0
    current_amount := 8000.0
    deadline := some septemberDeadline
    categories := ["shopping", "utilities", "entertainment", "food_dining"]
    is_active := true }

/-- Embeds `GoalImpactCalculator._initialize_demo_goals`, in dict insertion
order. -/
def demoGoals : List Goal := [demoSavingsGoal, ccBillGoal, monthlyBudgetGoal]

/-- Embeds `GoalImpactCalculator._is_transaction_relevant`. -/
def isTransactionRelevant (t : ParsedTransaction) (c : ClassificationResult)
    (g : Goal) : Bool :=
  g.categories.contains t.transaction_type ||
  g.categories.contains c.category ||
  (g.goal_type == GoalType.bill_payment &&
    (strContains (lowerStr t.raw_message) "reminder" ||
     (g.goal_id == "cc-bill" &&
      strContains (lowerStr t.raw_message) "credit card")))

/-- Embeds `GoalImpactCalculator._calculate_savings_impact`. -/
def calculateSavingsImpact (now : Int) (t : ParsedTransaction)
    (c : ClassificationResult) (g : Goal) : GoalImpact :=
  let asm : ℚ × ℚ × String :=
    if t.transaction_type == "credit" then
      (t.amount, min 0.8 (t.amount / 5000),
        "Great! ₹" ++ formatAmount2 t.amount ++ " added to your savings progress")
    else if t.transaction_type == "debit" then
      (-t.amount, -(min 0.6 (t.amount / 5000)),
        if c.category == "shopping" && decide (t.amount > 1000) then
          "High shopping expense of ₹" ++ formatAmount2 t.amount ++
            " impacts your savings goal"
        else
          "₹" ++ formatAmount2 t.amount ++
            " spent - consider if this aligns with your savings target")
    else (0, 0, "")
  let newProgress := min 1 (max 0 ((g.current_amount + asm.1) / g.target_amount))
  { goal_id := g.goal_id
    goal_name := g.name
    impact_score := asm.2.1
    message := asm.2.2
    impact_amount := asm.1
    new_progress := newProgress
    is_goal_achieved := decide (newProgress ≥ 1)
    is_goal_at_risk :=
      match g.deadline with
      | none => false
      | some d =>
        decide (timedeltaDays d now < 30) && decide (newProgress < 1 / 2) }

/-- Embeds `GoalImpactCalculator._calculate_bill_impact`. -/
def calculateBillImpact (now : Int) (t : ParsedTransaction)
    (c : ClassificationResult) (g : Goal) : GoalImpact :=
  let asm : ℚ × ℚ × String :=
    if strContains (lowerStr t.raw_message) "reminder" then
      (t.amount, -0.9,
        "⚠️ Bill payment reminder: ₹" ++ formatAmount2 t.amount ++ " due soon!")
    else if t.transaction_type == "credit" && g.goal_id == "cc-bill" then
      (-t.amount, 0.8,
        "✅ ₹" ++ formatAmount2 t.amount ++ " payment towards your credit card bill")
    else (0, 0, "")
  let newProgress := 1 - max 0 (g.target_amount + asm.1) / g.target_amount
  let isAtRisk : Bool :=
    match g.deadline with
    | none => false
    | some d =>
      decide (timedeltaDays d now ≤ 5) && decide (newProgress < 0.8)
  { goal_id := g.goal_id
    goal_name := g.name
    impact_score := asm.2.1
    message := if isAtRisk then asm.2.2 ++ " - Due date is approaching!" else asm.2.2
    impact_amount := asm.1
    new_progress := newProgress
    is_goal_achieved := decide (newProgress ≥ 1)
    is_goal_at_risk := isAtRisk }

/-- Embeds `GoalImpactCalculator._calculate_budget_impact` (returns `None` for
non-debit kinds). -/
def calculateBudgetImpact (t : ParsedTransaction) (c : ClassificationResult)
    (g : Goal) : Option GoalImpact :=
  if t.transaction_type ≠ "debit" then none
  else
    let spentRatio := (g.current_amount + t.amount) / g.target_amount
    let sm : ℚ × String :=
      if spentRatio > 1 then
        (-1, "⚠️ Budget exceeded! ₹" ++ formatAmount2 t.amount ++ " spent on " ++
          c.category)
      else if spentRatio > 0.8 then
        (-0.7, "⚠️ ₹" ++ formatAmount2 t.amount ++ " spent on " ++ c.category ++
          ". You're at " ++ formatPercent spentRatio ++ " of monthly budget")
      else
        (-0.3, "₹" ++ formatAmount2 t.amount ++ " spent on " ++ c.category ++
          ". " ++ formatPercent (1 - spentRatio) ++ " of budget remaining")
    some
      { goal_id := g.goal_id
        goal_name := g.name
        impact_score := sm.1
        message := sm.2
        impact_amount := t.amount
        new_progress := min 1 spentRatio
        is_goal_achieved := false
        is_goal_at_risk := decide (spentRatio > 0.9) }

/-- Embeds `GoalImpactCalculator._calculate_single_goal_impact`. -/
def calculateSingleGoalImpact (now : Int) (t : ParsedTransaction)
    (c : ClassificationResult) (g : Goal) : Option GoalImpact :=
  if isTransactionRelevant t c g then
    match g.goal_type with
    | GoalType.savings => some (calculateSavingsImpact now t c g)
    | GoalType.bill_payment => some (calculateBillImpact now t c g)
    | GoalType.spending_limit => calculateBudgetImpact t c g
    | _ => none
  else none

/-- Embeds `GoalImpactCalculator.calculate_transaction_impact` over the demo
goal registry; `now` is the clock instant observed during the call. -/
def calculateTransactionImpact (now : Int) (t : ParsedTransaction)
    (c : ClassificationResult) : List GoalImpact :=
  (demoGoals.filter (fun g => g.is_active)).filterMap
    (fun g => calculateSingleGoalImpact now t c g)

/-! ## Concrete inputs used by the theorems below -/

def amazonText : String :=
  "INR 1,249.00 spent on HDFC Credit Card XX1234 at AMAZON on 23-09-2025 1435."

/-- The fact `parse_message` extracts from `amazonText` (first pattern). -/
def amazonFact : ParsedTransaction :=
  { amount := 1249
    currency := "INR"
    transaction_type := "debit"
    timestamp := some ⟨2025, 9, 23, 14, 35⟩
    account_ref := some "XX1234"
    merchant := some "AMAZON"
    reference := none
    confidence := 0.95
    raw_message := amazonText
    channel := "sms"
    meta := ParserMeta.regexPattern
      ["amount", "account_type", "account_ref", "merchant", "date", "time"] }

def netflixText : String :=
  "INR 799.00 paid to Netflix via UPI Ref UPI123XYZ on 24-09-2025 0910."

/-- The fact `parse_message` extracts from `netflixText` (UPI pattern). -/
def netflixFact : ParsedTransaction :=
  { amount := 799
    currency := "INR"
    transaction_type := "debit"
    timestamp := some ⟨2025, 9, 24, 9, 10⟩
    account_ref := none
    merchant := some "Netflix"
    reference := some "UPI123XYZ"
    confidence := 0.90
    raw_message := netflixText
    channel := "sms"
    meta := ParserMeta.regexPattern
      ["amount", "merchant", "reference", "date", "time"] }

/-- A credit-kind fact (shape of the NEFT sample message). -/
def neftCreditFact : ParsedTransaction :=
  { amount := 4999
    currency := "INR"
    transaction_type := "credit"
    timestamp := some ⟨2025, 9, 23, 18, 5⟩
    account_ref := some "9876"
    merchant := none
    reference := some "ABCD123"
    confidence := 0.95
    raw_message :=
      "INR 4,999.00 credited to AC 9876 ICICI via NEFT on 23-09-2025 1805. Ref ABCD123."
    channel := "sms"
    meta := ParserMeta.regexPattern
      ["amount", "account_ref", "bank", "date", "time", "reference"] }

/-- A bill-kind fact whose raw text contains "Reminder". -/
def billReminderFact : ParsedTransaction :=
  { amount := 12450
    currency := "INR"
    transaction_type := "bill"
    timestamp := none
    account_ref := some "XX1234"
    merchant := none
    reference := none
    confidence := 0.85
    raw_message := "Reminder: payment of INR 12,450 due on 28-09-2025 for HDFC XX1234"
    channel := "sms"
    meta := ParserMeta.regexPattern ["amount", "due_date", "bank", "account_ref"] }

/-- A fact whose kind is neither credit nor debit. -/
def otherKindFact : ParsedTransaction :=
  { amount := 210
    currency := "INR"
    transaction_type := "other"
    timestamp := none
    account_ref := none
    merchant := none
    reference := none
    confidence := 0.3
    raw_message := "INR 210"
    channel := "sms"
    meta := ParserMeta.genericFallback }

/-- A classification carrying a category the savings goal tracks. -/
def cashbackCls : ClassificationResult :=
  { category := "cashback"
    confidence := 0.9
    subcategories := []
    features_used := featureKeys }

/-- A zero-valued impact record produced for the credit-card-bill goal. -/
def ccBillZeroImpact : GoalImpact :=
  { goal_id := "cc-bill"
    goal_name := "Credit Card Bill Payment"
    impact_score := 0
    message := ""
    impact_amount := 0
    new_progress := 0
    is_goal_achieved := false
    is_goal_at_risk := false }

/-- A pattern-matching text whose amount capture is a bare comma. -/
def commaAmountText : String :=
  "INR , spent on HDFC Credit Card XX1234 at X on 23-09-2025 1435."

/-- A text no declared pattern matches but the generic search does. -/
def helloText : String := "hello INR 1,249.00"

/-- A text carrying no currency-amount token at all. -/
def noAmountText : String := "no amount here"

/-- The GoalImpact fields that do not depend on the clock instant. -/
def stableProjection (gi : GoalImpact) : String × String × ℚ × ℚ × ℚ × Bool :=
  (gi.goal_id, gi.goal_name, gi.impact_score, gi.impact_amount,
    gi.new_progress, gi.is_goal_achieved)

/-! ## The rule predictor as an explicit decision list

`specBranches` restates `_rule_based_predict` in the spec's vocabulary:
an ordered list of (condition, category, confidence) branches, resolved
first-match-wins.  It is compared against the source-derived
`ruleBasedPredict` in the theorem for C6. -/

def specBranches : List ((RuleFeatures → Bool) × String × ℚ) :=
  [(fun f => strContains (lowerStr f.merchant) "amazon" ||
      strContains (lowerStr f.merchant) "flipkart" ||
      strContains (lowerStr f.merchant) "myntra" ||
      strContains (lowerStr f.merchant) "mall", "shopping", 0.9),
   (fun f => strContains (lowerStr f.merchant) "mseb" ||
      strContains (lowerStr f.merchant) "electricity" ||
      strContains (lowerStr f.merchant) "gas" ||
      strContains (lowerStr f.merchant) "water", "utilities", 0.95),
   (fun f => strContains (lowerStr f.merchant) "netflix" ||
      strContains (lowerStr f.merchant) "spotify" ||
      strContains (lowerStr f.merchant) "prime" ||
      strContains (lowerStr f.merchant) "cinema", "entertainment", 0.9),
   (fun f => lowerStr f.transaction_type == "bill", "bills", 0.85),
   (fun f => strContains (lowerStr f.raw_message) "upi" ||
      strContains (lowerStr f.raw_message) "neft", "transfer", 0.8),
   (fun f => decide (f.amount < 100) &&
      strContains (lowerStr f.raw_message) "credit card", "fee", 0.75),
   (fun f => lowerStr f.transaction_type == "credit" &&
      strContains (lowerStr f.raw_message) "interest", "cashback", 0.9),
   (fun _ => true, "other", 0.3)]

/-- First-match-wins evaluation of a decision list. -/
def firstMatch (f : RuleFeatures) :
    List ((RuleFeatures → Bool) × String × ℚ) → String × ℚ
  | [] => ("other", 0.3)
  | b :: rest => if b.1 f then b.2 else firstMatch f rest

deriving instance DecidableEq for Except

set_option maxRecDepth 100000

/-! ## Helper lemmas shared by the theorems -/

lemma one_sub_max_div_le_one (T x : ℚ) (hT : 0 < T) : 1 - max 0 x / T ≤ 1 := by
  have h := div_nonneg (le_max_left 0 x) hT.le
  linarith

lemma zero_le_one_sub_max_div (T x : ℚ) (hT : 0 < T) (hx : x ≤ T) :
    0 ≤ 1 - max 0 x / T := by
  have h2 : max 0 x ≤ T := max_le hT.le hx
  have h3 : max 0 x / T ≤ 1 := (div_le_one hT).2 h2
  linarith

lemma savingsImpact_bounds (now : Int) (t : ParsedTransaction)
    (c : ClassificationResult) (g : Goal) (ht : 0 ≤ t.amount) :
    -1 ≤ (calculateSavingsImpact now t c g).impact_score ∧
    (calculateSavingsImpact now t c g).impact_score ≤ 1 ∧
    0 ≤ (calculateSavingsImpact now t c g).new_progress ∧
    (calculateSavingsImpact now t c g).new_progress ≤ 1 := by
  have hdiv : (0 : ℚ) ≤ t.amount / 5000 := by positivity
  unfold calculateSavingsImpact
  refine ⟨?_, ?_, ?_, ?_⟩
  · split_ifs <;> dsimp only <;>
      first
        | exact le_min (by norm_num) (by linarith)
        | (have h1 := min_le_left (0.6 : ℚ) (t.amount / 5000); linarith)
        | norm_num
  · split_ifs <;> dsimp only <;>
      first
        | (have h1 := min_le_left (0.8 : ℚ) (t.amount / 5000); linarith)
        | (have h1 := le_min (show (0 : ℚ) ≤ 0.6 by norm_num) hdiv; linarith)
        | norm_num
  · exact le_min (by norm_num) (le_max_left _ _)
  · exact min_le_left _ _

lemma billImpact_bounds (now : Int) (t : ParsedTransaction)
    (c : ClassificationResult) (g : Goal) (ht : 0 ≤ t.amount)
    (htgt : 0 < g.target_amount) :
    -1 ≤ (calculateBillImpact now t c g).impact_score ∧
    (calculateBillImpact now t c g).impact_score ≤ 1 ∧
    (calculateBillImpact now t c g).new_progress ≤ 1 ∧
    (strContains (lowerStr t.raw_message) "reminder" = false →
      0 ≤ (calculateBillImpact now t c g).new_progress) := by
  unfold calculateBillImpact
  refine ⟨?_, ?_, ?_, ?_⟩
  · split_ifs <;> dsimp only <;> norm_num
  · split_ifs <;> dsimp only <;> norm_num
  · exact one_sub_max_div_le_one _ _ htgt
  · intro hrem
    simp only [hrem, Bool.false_eq_true, if_false]
    split_ifs <;> dsimp only <;>
      exact zero_le_one_sub_max_div _ _ htgt (by linarith)

lemma budgetImpact_bounds (t : ParsedTransaction)
    (c : ClassificationResult) (g : Goal) (gi : GoalImpact) (ht : 0 ≤ t.amount)
    (hcur : 0 ≤ g.current_amount) (htgt : 0 < g.target_amount)
    (h : calculateBudgetImpact t c g = some gi) :
    -1 ≤ gi.impact_score ∧ gi.impact_score ≤ 1 ∧
    0 ≤ gi.new_progress ∧ gi.new_progress ≤ 1 := by
  unfold calculateBudgetImpact at h
  by_cases hd : t.transaction_type ≠ "debit"
  · rw [if_pos hd] at h
    exact absurd h (by simp)
  · rw [if_neg hd] at h
    injection h with h
    subst h
    have hr : (0 : ℚ) ≤ (g.current_amount + t.amount) / g.target_amount := by positivity
    refine ⟨?_, ?_, ?_, ?_⟩
    · split_ifs <;> dsimp only <;> norm_num
    · split_ifs <;> dsimp only <;> norm_num
    · exact le_min (by norm_num) hr
    · exact min_le_left _ _

/-! ## The claims -/

/-- C1, as stated: goal evaluation on identical `(fact, classification)`
inputs always returns identical `GoalImpact` lists, with no dependence on
anything outside the arguments and the fixed goal registry.  This is
false: `datetime.now()` is read inside the savings and bill calculators,
so the at-risk flags (and the bill message suffix) change with the clock
instant.  At the NEFT credit fact, evaluating at epoch instant `0` and
one day before the savings deadline produces different lists. -/
theorem c1_counterexample :
    calculateTransactionImpact 0 neftCreditFact
      (classifyTransaction neftCreditFact) ≠
    calculateTransactionImpact savingsDeadline neftCreditFact
      (classifyTransaction neftCreditFact) := by
  intro h
  have h2 := congrArg (List.map GoalImpact.is_goal_at_risk) h
  revert h2
  with_unfolding_all decide

/-- C1 (amended): for a fixed clock instant goal evaluation is a pure
function of `(fact, classification)`; across clock instants, every field
except the at-risk flag and the message (goal id, goal name, impact
score, impact amount, new progress, achieved flag) is identical. -/
theorem c1_theorem :
    ∀ (now1 now2 : Int) (t : ParsedTransaction) (c : ClassificationResult),
      (calculateTransactionImpact now1 t c).map stableProjection =
      (calculateTransactionImpact now2 t c).map stableProjection := by
  intro n1 n2 t c
  simp only [calculateTransactionImpact, List.map_filterMap]
  refine List.filterMap_congr (fun g hg => ?_)
  simp only [calculateSingleGoalImpact]
  split
  · cases hgt : g.goal_type <;> rfl
  · rfl

/-- C2, as stated: every produced `GoalImpact` has `impact_score` in
`[-1, 1]` and `new_progress` in `[0, 1]`.  This is false for
`new_progress`: a bill reminder sets `impact_amount = +amount`, giving
`new_progress = 1 - (target + amount) / target < 0`; at the sample
reminder fact the cc-bill impact has `new_progress = -1`. -/
theorem c2_counterexample :
    ∃ gi ∈ calculateTransactionImpact 0 billReminderFact
        (classifyTransaction billReminderFact),
      gi.new_progress < 0 := by
  with_unfolding_all decide

/-- C2 (amended): for transactions with non-negative amount, every
produced `GoalImpact` has `impact_score` in `[-1, 1]` and
`new_progress ≤ 1`; `new_progress ≥ 0` as well, except on the
bill-payment reminder path (raw text containing "reminder"), which is
not clamped below. -/
theorem c2_theorem :
    ∀ (now : Int) (t : ParsedTransaction) (c : ClassificationResult)
      (gi : GoalImpact),
      0 ≤ t.amount → gi ∈ calculateTransactionImpact now t c →
      (-1 ≤ gi.impact_score ∧ gi.impact_score ≤ 1) ∧
      gi.new_progress ≤ 1 ∧
      (strContains (lowerStr t.raw_message) "reminder" = false →
        0 ≤ gi.new_progress) := by
  intro now t c gi ht hmem
  have hfil : demoGoals.filter (fun g => g.is_active) = demoGoals := rfl
  rw [calculateTransactionImpact, hfil, List.mem_filterMap] at hmem
  obtain ⟨g, hg, hfg⟩ := hmem
  have hg3 : g = demoSavingsGoal ∨ g = ccBillGoal ∨ g = monthlyBudgetGoal := by
    simpa [demoGoals] using hg
  rcases hg3 with rfl | rfl | rfl
  · rw [calculateSingleGoalImpact] at hfg
    split_ifs at hfg with hrel
    dsimp only [demoSavingsGoal] at hfg
    injection hfg with hfg
    subst hfg
    obtain ⟨h1, h2, h3, h4⟩ := savingsImpact_bounds now t c demoSavingsGoal ht
    exact ⟨⟨h1, h2⟩, h4, fun _ => h3⟩
  · rw [calculateSingleGoalImpact] at hfg
    split_ifs at hfg with hrel
    dsimp only [ccBillGoal] at hfg
    injection hfg with hfg
    subst hfg
    obtain ⟨h1, h2, h3, h4⟩ := billImpact_bounds now t c ccBillGoal ht
      (by norm_num [ccBillGoal])
    exact ⟨⟨h1, h2⟩, h3, h4⟩
  · rw [calculateSingleGoalImpact] at hfg
    split_ifs at hfg with hrel
    dsimp only [monthlyBudgetGoal] at hfg
    obtain ⟨h1, h2, h3, h4⟩ := budgetImpact_bounds t c monthlyBudgetGoal gi ht
      (by norm_num [monthlyBudgetGoal]) (by norm_num [monthlyBudgetGoal]) hfg
    exact ⟨⟨h1, h2⟩, h4, fun _ => h3⟩

/-- Witness for C2: the zero-valued cc-bill impact produced for the
AMAZON debit satisfies the bounds, via `c2_theorem` at that input. -/
theorem c2_witness :
    -1 ≤ ccBillZeroImpact.impact_score ∧ ccBillZeroImpact.impact_score ≤ 1 ∧
    ccBillZeroImpact.new_progress ≤ 1 ∧ 0 ≤ ccBillZeroImpact.new_progress := by
  have h := c2_theorem 0 amazonFact (classifyTransaction amazonFact)
    ccBillZeroImpact (by norm_num [amazonFact]) (by with_unfolding_all decide)
  exact ⟨h.1.1, h.1.2, h.2.1, h.2.2 (by with_unfolding_all decide)⟩

/-- C3, as stated: on the HDFC/AMAZON sample the extracted fact has
amount 1249, kind debit, merchant AMAZON, confidence 0.95, and the
classification is shopping with confidence at least 0.8 and an *empty*
subcategory list.  The last part is false: the merchant contains
"amazon", so `_generate_subcategories` appends `online_marketplace`
regardless of the amount. -/
theorem c3_counterexample :
    parseMessage amazonText = Except.ok (some amazonFact) ∧
    (classifyTransaction amazonFact).subcategories ≠ [] := by
  constructor
  · with_unfolding_all decide
  · with_unfolding_all decide

/-- C3 (amended): on the HDFC/AMAZON sample the extracted fact has amount
1249, kind debit, merchant AMAZON, confidence 0.95; the classification is
shopping with confidence at least 0.8 and subcategory list
`["online_marketplace"]` (for shopping the list is empty only when the
amount is at most 2000 and the merchant does not contain "amazon"). -/
theorem c3_theorem :
    ∃ t, parseMessage amazonText = Except.ok (some t) ∧
      t.amount = 1249 ∧ t.transaction_type = "debit" ∧
      t.merchant = some "AMAZON" ∧ t.confidence = 0.95 ∧
      (classifyTransaction t).category = "shopping" ∧
      0.8 ≤ (classifyTransaction t).confidence ∧
      (classifyTransaction t).subcategories = ["online_marketplace"] := by
  refine ⟨amazonFact, ?_, rfl, rfl, rfl, rfl, ?_, ?_, ?_⟩
  · with_unfolding_all decide
  · with_unfolding_all decide
  · with_unfolding_all decide
  · with_unfolding_all decide

/-- C4: extraction never raises.  This is false on the code: the input
"INR ," matches the generic currency-amount search with capture ",",
comma-stripping leaves the empty string, and the unguarded `float('')`
raises `ValueError` (modelled as `Except.error ()`), where the claim
requires a no-match fall-through. -/
theorem c4_theorem : parseMessage "INR ," = Except.error () := by
  with_unfolding_all decide

/-- C5, as stated: every text matched by a declared pattern yields a fact
with that pattern's confidence.  This is false when the amount capture
holds no digit: this text is matched by the first declared pattern, yet
extraction raises (the `float('')` slip) instead of returning a fact. -/
theorem c5_counterexample :
    (findPatternMatch (pyStrip commaAmountText)).isSome = true ∧
    parseMessage commaAmountText = Except.error () := by
  constructor
  · with_unfolding_all decide
  · with_unfolding_all decide

/-- C5 (amended): provided the comma-stripped amount capture parses as a
decimal (it contains a digit), a text matched by some declared pattern
(first match in declared order wins) yields a fact whose confidence,
kind and metadata come from that pattern and whose amount is the parse
of the capture with thousands separators stripped; a text matching no
declared pattern whose generic currency-amount capture parses yields the
fallback fact (kind other, confidence 0.3, merchant/account/reference
unset, fallback metadata tag); otherwise extraction returns nothing. -/
theorem c5_theorem :
    ∀ text : String,
      (∀ p groups a, findPatternMatch (pyStrip text) = some (p, groups) →
        pyFloat (stripCommas ((groups.get? 0).getD "")) = some a →
        p ∈ smsPatterns ∧
        ∃ t, parseMessage text = Except.ok (some t) ∧
          t.confidence = p.confidence ∧ t.amount = a ∧
          t.transaction_type = p.ttype ∧
          t.meta = ParserMeta.regexPattern p.fields) ∧
      (∀ g a, findPatternMatch (pyStrip text) = none →
        reSearch genericAmountRe (pyStrip text) = some g →
        pyFloat (stripCommas (getGroup g 0)) = some a →
        parseMessage text = Except.ok (some
          { amount := a, currency := "INR", transaction_type := "other",
            timestamp := none, account_ref := none, merchant := none,
            reference := none, confidence := 0.3, raw_message := pyStrip text,
            channel := "sms", meta := ParserMeta.genericFallback })) ∧
      (findPatternMatch (pyStrip text) = none →
        reSearch genericAmountRe (pyStrip text) = none →
        parseMessage text = Except.ok none) := by
  intro text
  refine ⟨?_, ?_, ?_⟩
  · intro p groups a hfind hfl
    constructor
    · obtain ⟨q, hq, hfq⟩ := List.exists_of_findSome?_eq_some hfind
      revert hfq
      cases hs : reSearch q.regex (pyStrip text) <;> intro hfq
      · exact absurd hfq (by simp)
      · simp only [Option.some.injEq, Prod.mk.injEq] at hfq
        exact hfq.1 ▸ hq
    · have heq : parseMessage text = Except.ok (some
          { amount := a, currency := "INR", transaction_type := p.ttype,
            timestamp := parseTimestamp groups p.fields,
            account_ref := extractField groups p.fields "account_ref",
            merchant := extractField groups p.fields "merchant",
            reference := extractField groups p.fields "reference",
            confidence := p.confidence, raw_message := pyStrip text,
            channel := "sms", meta := ParserMeta.regexPattern p.fields }) := by
        simp only [parseMessage, hfind, extractTransactionData, hfl]
      exact ⟨_, heq, rfl, rfl, rfl, rfl⟩
  · intro g a hfind hsearch hfl
    simp only [parseMessage, hfind, hsearch, hfl]
  · intro hfind hsearch
    simp only [parseMessage, hfind, hsearch]

/-- Witness for C5: all three branches of `c5_theorem` at concrete texts:
the HDFC pattern match (confidence 0.95, "1,249.00" parsed as 1249), the
generic fallback on "hello INR 1,249.00", and no-amount text yielding
nothing. -/
theorem c5_witness :
    (∃ t, parseMessage amazonText = Except.ok (some t) ∧
      t.confidence = 0.95 ∧ t.amount = 1249) ∧
    parseMessage helloText = Except.ok (some
      { amount := 1249, currency := "INR", transaction_type := "other",
        timestamp := none, account_ref := none, merchant := none,
        reference := none, confidence := 0.3,
        raw_message := pyStrip helloText,
        channel := "sms", meta := ParserMeta.genericFallback }) ∧
    parseMessage noAmountText = Except.ok none := by
  refine ⟨?_, ?_, ?_⟩
  · obtain ⟨-, t, hparse, hconf, hamt, -, -⟩ := (c5_theorem amazonText).1
      ⟨hdfcSpendRe, "debit", 0.95,
        ["amount", "account_type", "account_ref", "merchant", "date", "time"]⟩
      ["1,249.00", "HDFC Credit Card", "XX1234", "AMAZON", "23-09-2025", "1435"]
      1249 (by with_unfolding_all decide) (by with_unfolding_all decide)
    exact ⟨t, hparse, hconf, hamt⟩
  · exact (c5_theorem helloText).2.1 [(0, "1,249.00")] 1249
      (by with_unfolding_all decide) (by with_unfolding_all decide)
      (by with_unfolding_all decide)
  · exact (c5_theorem noAmountText).2.2
      (by with_unfolding_all decide) (by with_unfolding_all decide)

/-- C6: the rule predictor is an ordered decision list with
first-match-wins semantics and the fixed per-branch confidences 0.9,
0.95, 0.9, 0.85, 0.8, 0.75, 0.9, 0.3 in branch order (shopping,
utilities, entertainment, bills, transfer, fee, cashback, other); and on
the Netflix UPI sample the merchant-keyword rule fires before the
UPI-transfer rule, giving entertainment with confidence at least 0.8. -/
theorem c6_theorem :
    (∀ f, ruleBasedPredict f = firstMatch f specBranches) ∧
    specBranches.map (fun b => b.2) =
      [("shopping", (0.9 : ℚ)), ("utilities", 0.95), ("entertainment", 0.9),
       ("bills", 0.85), ("transfer", 0.8), ("fee", 0.75), ("cashback", 0.9),
       ("other", 0.3)] ∧
    (∃ t, parseMessage netflixText = Except.ok (some t) ∧
      (classifyTransaction t).category = "entertainment" ∧
      0.8 ≤ (classifyTransaction t).confidence) := by
  refine ⟨fun f => rfl, rfl, netflixFact, ?_, ?_, ?_⟩
  · with_unfolding_all decide
  · with_unfolding_all decide
  · with_unfolding_all decide

/-- C7: for a relevant spending-limit goal, non-debit kinds produce no
impact; for debits, `impact_amount = amount`, the score is -1.0, -0.7 or
-0.3 by the spent-ratio tier (evaluated high to low), the new progress
is `min 1 spent_ratio`, the achieved flag is never set, and the at-risk
flag holds exactly when the spent ratio exceeds 0.9. -/
theorem c7_theorem :
    ∀ (now : Int) (t : ParsedTransaction) (c : ClassificationResult) (g : Goal),
      g.goal_type = GoalType.spending_limit → 0 < g.target_amount →
      isTransactionRelevant t c g = true →
      (t.transaction_type ≠ "debit" → calculateSingleGoalImpact now t c g = none) ∧
      (t.transaction_type = "debit" →
        ∃ gi, calculateSingleGoalImpact now t c g = some gi ∧
          gi.impact_amount = t.amount ∧
          gi.new_progress = min 1 ((g.current_amount + t.amount) / g.target_amount) ∧
          gi.is_goal_achieved = false ∧
          (gi.is_goal_at_risk = true ↔
            0.9 < (g.current_amount + t.amount) / g.target_amount) ∧
          gi.impact_score =
            (if 1 < (g.current_amount + t.amount) / g.target_amount then -1
             else if 0.8 < (g.current_amount + t.amount) / g.target_amount then -0.7
             else -0.3)) := by
  intro now t c g hgt htgt hrel
  have hd : calculateSingleGoalImpact now t c g = calculateBudgetImpact t c g := by
    simp only [calculateSingleGoalImpact, hrel, if_true, hgt]
  constructor
  · intro hne
    rw [hd]
    simp only [calculateBudgetImpact, if_pos hne]
  · intro heq
    have hne : ¬ t.transaction_type ≠ "debit" := by simp [heq]
    rw [hd]
    simp only [calculateBudgetImpact, if_neg hne]
    refine ⟨_, rfl, rfl, rfl, rfl, ?_, ?_⟩
    · simp [gt_iff_lt]
    · split_ifs <;> rfl

/-- Witness for C7: the AMAZON debit against the monthly budget goal
lands in the lowest tier, so `c7_theorem` yields impact score -0.3. -/
theorem c7_witness :
    ∃ gi, calculateSingleGoalImpact 0 amazonFact
        (classifyTransaction amazonFact) monthlyBudgetGoal = some gi ∧
      gi.impact_score = -0.3 ∧ gi.impact_amount = 1249 := by
  obtain ⟨gi, hgi, hamt, -, -, -, hscore⟩ :=
    (c7_theorem 0 amazonFact (classifyTransaction amazonFact) monthlyBudgetGoal
      rfl (by norm_num [monthlyBudgetGoal]) (by with_unfolding_all decide)).2 rfl
  refine ⟨gi, hgi, ?_, hamt⟩
  rw [hscore]
  norm_num [monthlyBudgetGoal, amazonFact]

/-- C8: for a relevant bill-payment goal, a raw text containing
"reminder" (case-insensitive) yields impact score -0.9 and impact amount
`+amount` regardless of amount and kind; otherwise a credit kind against
the credit-card-bill goal yields impact score +0.8 and impact amount
`-amount`. -/
theorem c8_theorem :
    ∀ (now : Int) (t : ParsedTransaction) (c : ClassificationResult) (g : Goal),
      g.goal_type = GoalType.bill_payment →
      isTransactionRelevant t c g = true →
      (strContains (lowerStr t.raw_message) "reminder" = true →
        ∃ gi, calculateSingleGoalImpact now t c g = some gi ∧
          gi.impact_score = -0.9 ∧ gi.impact_amount = t.amount) ∧
      (strContains (lowerStr t.raw_message) "reminder" = false →
        t.transaction_type = "credit" → g.goal_id = "cc-bill" →
        ∃ gi, calculateSingleGoalImpact now t c g = some gi ∧
          gi.impact_score = 0.8 ∧ gi.impact_amount = -t.amount) := by
  intro now t c g hgt hrel
  have hd : calculateSingleGoalImpact now t c g =
      some (calculateBillImpact now t c g) := by
    simp only [calculateSingleGoalImpact, hrel, if_true, hgt]
  constructor
  · intro hrem
    refine ⟨_, hd, ?_, ?_⟩ <;>
      simp only [calculateBillImpact, hrem, if_true]
  · intro hrem hcred hid
    have hcond : (t.transaction_type == "credit" && g.goal_id == "cc-bill") = true := by
      simp [hcred, hid]
    refine ⟨_, hd, ?_, ?_⟩ <;>
      simp only [calculateBillImpact, hrem, Bool.false_eq_true, if_false,
        hcond, if_true]

/-- Witness for C8: the reminder fact and the NEFT credit against the
cc-bill goal, both via `c8_theorem`. -/
theorem c8_witness :
    (∃ gi, calculateSingleGoalImpact 0 billReminderFact
        (classifyTransaction billReminderFact) ccBillGoal = some gi ∧
      gi.impact_score = -0.9 ∧ gi.impact_amount = 12450) ∧
    (∃ gi, calculateSingleGoalImpact 0 neftCreditFact
        (classifyTransaction neftCreditFact) ccBillGoal = some gi ∧
      gi.impact_score = 0.8 ∧ gi.impact_amount = -4999) := by
  constructor
  · obtain ⟨gi, hgi, hs, ha⟩ :=
      (c8_theorem 0 billReminderFact (classifyTransaction billReminderFact)
        ccBillGoal rfl (by with_unfolding_all decide)).1
        (by with_unfolding_all decide)
    exact ⟨gi, hgi, hs, ha⟩
  · obtain ⟨gi, hgi, hs, ha⟩ :=
      (c8_theorem 0 neftCreditFact (classifyTransaction neftCreditFact)
        ccBillGoal rfl (by with_unfolding_all decide)).2
        (by with_unfolding_all decide) rfl rfl
    exact ⟨gi, hgi, hs, ha⟩

/-- C9: classification is pure, total and idempotent: every fact yields a
result, classifying twice gives identical results, the (category,
confidence) pair always comes from the fixed branch table, and the
confidence is at least the 0.3 worst case. -/
theorem c9_theorem :
    ∀ t : ParsedTransaction,
      classifyTransaction t = classifyTransaction t ∧
      ((classifyTransaction t).category, (classifyTransaction t).confidence) ∈
        [("shopping", (0.9 : ℚ)), ("utilities", 0.95), ("entertainment", 0.9),
         ("bills", 0.85), ("transfer", 0.8), ("fee", 0.75), ("cashback", 0.9),
         ("other", 0.3)] ∧
      (0.3 : ℚ) ≤ (classifyTransaction t).confidence := by
  intro t
  refine ⟨rfl, ?_, ?_⟩ <;>
    · unfold classifyTransaction ruleBasedPredict
      split_ifs <;> norm_num

/-- C10, as stated: a relevant savings goal with a kind that is neither
credit nor debit, and a relevant bill-payment goal matching neither the
reminder nor the credit-payment branch, still produce a GoalImpact with
score 0, amount 0 and an *empty* message.  The empty message part is
false: when the bill goal is within 5 days of its deadline with progress
below 0.8, the at-risk suffix is appended to the otherwise empty
message. -/
theorem c10_counterexample :
    ∃ gi, calculateSingleGoalImpact septemberDeadline amazonFact
        (classifyTransaction amazonFact) ccBillGoal = some gi ∧
      gi.impact_score = 0 ∧ gi.impact_amount = 0 ∧ gi.message ≠ "" := by
  with_unfolding_all decide

/-- C10 (amended): those no-op cases still produce a zero-valued record
(score 0, amount 0) rather than absence; the message is empty, except
that a bill-payment goal flagged at risk carries exactly the at-risk
warning suffix. -/
theorem c10_theorem :
    ∀ (now : Int) (t : ParsedTransaction) (c : ClassificationResult) (g : Goal),
      (g.goal_type = GoalType.savings → isTransactionRelevant t c g = true →
        t.transaction_type ≠ "credit" → t.transaction_type ≠ "debit" →
        ∃ gi, calculateSingleGoalImpact now t c g = some gi ∧
          gi.impact_score = 0 ∧ gi.impact_amount = 0 ∧ gi.message = "") ∧
      (g.goal_type = GoalType.bill_payment → isTransactionRelevant t c g = true →
        strContains (lowerStr t.raw_message) "reminder" = false →
        ¬(t.transaction_type = "credit" ∧ g.goal_id = "cc-bill") →
        ∃ gi, calculateSingleGoalImpact now t c g = some gi ∧
          gi.impact_score = 0 ∧ gi.impact_amount = 0 ∧
          (gi.message = "" ∨
            (gi.is_goal_at_risk = true ∧
              gi.message = " - Due date is approaching!"))) := by
  intro now t c g
  constructor
  · intro hgt hrel hnc hnd
    have hd : calculateSingleGoalImpact now t c g =
        some (calculateSavingsImpact now t c g) := by
      simp only [calculateSingleGoalImpact, hrel, if_true, hgt]
    have hbc : (t.transaction_type == "credit") = false := by simp [hnc]
    have hbd : (t.transaction_type == "debit") = false := by simp [hnd]
    refine ⟨_, hd, ?_, ?_, ?_⟩ <;>
      simp only [calculateSavingsImpact, hbc, hbd, Bool.false_eq_true, if_false]
  · intro hgt hrel hrem hncc
    have hd : calculateSingleGoalImpact now t c g =
        some (calculateBillImpact now t c g) := by
      simp only [calculateSingleGoalImpact, hrel, if_true, hgt]
    have hcond : (t.transaction_type == "credit" && g.goal_id == "cc-bill") = false := by
      rcases Decidable.em (t.transaction_type = "credit") with hc | hc <;>
        rcases Decidable.em (g.goal_id = "cc-bill") with hi | hi <;>
        simp [hc, hi]
      exact absurd ⟨hc, hi⟩ hncc
    refine ⟨_, hd, ?_, ?_, ?_⟩
    · simp only [calculateBillImpact, hrem, hcond, Bool.false_eq_true, if_false]
    · simp only [calculateBillImpact, hrem, hcond, Bool.false_eq_true, if_false]
    · simp only [calculateBillImpact, hrem, hcond, Bool.false_eq_true, if_false]
      split_ifs with har
      · exact Or.inr ⟨by simp only [calculateBillImpact, hrem, hcond,
          Bool.false_eq_true, if_false, har], rfl⟩
      · exact Or.inl rfl

/-- Witness for C10: an other-kind fact with a cashback classification
against the savings goal, and the AMAZON debit against the cc-bill goal
far from its deadline, both via `c10_theorem`. -/
theorem c10_witness :
    (∃ gi, calculateSingleGoalImpact 0 otherKindFact cashbackCls
        demoSavingsGoal = some gi ∧
      gi.impact_score = 0 ∧ gi.impact_amount = 0 ∧ gi.message = "") ∧
    (∃ gi, calculateSingleGoalImpact 0 amazonFact
        (classifyTransaction amazonFact) ccBillGoal = some gi ∧
      gi.impact_score = 0 ∧ gi.impact_amount = 0 ∧ gi.message = "") := by
  constructor
  · exact (c10_theorem 0 otherKindFact cashbackCls demoSavingsGoal).1 rfl
      (by with_unfolding_all decide) (by decide) (by decide)
  · obtain ⟨gi, hgi, hs, ha, hmsg⟩ :=
      (c10_theorem 0 amazonFact (classifyTransaction amazonFact) ccBillGoal).2
        rfl (by with_unfolding_all decide) (by with_unfolding_all decide)
        (fun hcc => absurd hcc.1 (by decide))
    have hgi2 : calculateSingleGoalImpact 0 amazonFact
        (classifyTransaction amazonFact) ccBillGoal = some ccBillZeroImpact := by
      with_unfolding_all decide
    rw [hgi2] at hgi
    injection hgi with hgi
    subst hgi
    rcases hmsg with h | h
    · exact ⟨ccBillZeroImpact, hgi2, hs, ha, h⟩
    · exact absurd h.1 (by decide)

end AmiFi
